import Mathlib

/-!
Verification of the SalonSync appointment-scheduling core.

Shallow embedding of the Python backend (src/backend/app).  Times are
modelled as integer minutes (a `datetime` becomes minutes since an arbitrary
epoch; a `date` becomes its day index, so the datetime at day `d`, hour `h`,
minute `m` is `d*1440 + h*60 + m`).  Monetary amounts (`Numeric`/`float`)
are modelled as rationals; none of the verified claims depends on binary
floating-point rounding.  Database rows are Lean structures, the database a
record of lists, and every endpoint/service method a pure function from a
database (plus a `now` clock value) to a result together with the new
database.  Python exceptions become `Except`/sum results; an operation that
raises before `db.commit()` leaves the database unchanged.
-/

namespace SalonSync

set_option maxRecDepth 20000

deriving instance DecidableEq for Except

/-! ### Data model (src/backend/app/models) -/

/-- Appointment lifecycle status (models/appointment.py, AppointmentStatus). -/
inductive ApptStatus
  | scheduled
  | confirmed
  | checkedIn
  | inProgress
  | completed
  | cancelled
  | noShow
deriving DecidableEq, Repr

/-- Appointment row (models/appointment.py).  Only the columns the
scheduling core reads or writes are carried. -/
structure Appointment where
  id : Nat
  salonId : Nat
  clientId : Nat
  staffId : Nat
  startTime : Int
  endTime : Int
  durationMins : Nat
  status : ApptStatus
  checkedInAt : Option Int := none
  startedAt : Option Int := none
  completedAt : Option Int := none
  cancelledAt : Option Int := none
  cancelledBy : Option String := none
  cancellationReason : Option String := none
  cancellationFee : ℚ := 0
  estimatedTotal : Option ℚ := none
  finalTotal : Option ℚ := none
  depositAmount : ℚ := 0
  clientNotes : Option String := none
  staffNotes : Option String := none
  internalNotes : Option String := none
  source : String := "online"
  confirmationCode : Option String := none
  createdById : Option Nat := none
  updatedAt : Int := 0
deriving DecidableEq, Repr

/-- Appointment service line (models/appointment.py, AppointmentService):
a service snapshotted into an appointment. -/
structure ServiceLine where
  id : Nat
  appointmentId : Nat
  serviceId : Nat
  price : ℚ
  durationMins : Nat
  sequence : Nat := 0
deriving DecidableEq, Repr

/-- Service catalog row (models/service.py). -/
structure Service where
  id : Nat
  salonId : Nat
  price : ℚ
  durationMins : Nat
  bufferBeforeMins : Nat := 0
  bufferAfterMins : Nat := 0
  isActive : Bool := true
  isOnlineBookable : Bool := true
deriving DecidableEq, Repr

/-- Python property Service.total_duration: duration plus both buffers. -/
def Service.totalDuration (s : Service) : Nat :=
  s.durationMins + s.bufferBeforeMins + s.bufferAfterMins

/-- One weekday entry of Staff.default_schedule (a JSON object such as
the object for key "tuesday").  `working` is the "working" key read by
SchedulingService.get_availability (absent key reads as false);
`startMin`/`endMin` are the parsed "start"/"end" times as minutes after
midnight. -/
structure DaySchedule where
  working : Bool
  startMin : Nat
  endMin : Nat
deriving DecidableEq, Repr

/-- Staff row (models/staff.py).  `schedule` is default_schedule keyed by
weekday index (0 = Monday .. 6 = Sunday, standing for the lowercase day
names).  Note that models/staff.py defines NO is_active column or
property; see staffModelFields below. -/
structure Staff where
  id : Nat
  salonId : Nat
  status : String := "active"
  schedule : List (Int × DaySchedule) := []
  bookingBufferMins : Nat := 0
  serviceIds : List Nat := []
  showOnBooking : Bool := true
deriving DecidableEq, Repr

/-- Column, property and relationship names defined on the Staff model
(models/staff.py).  Python attribute lookup on a Staff instance succeeds
exactly for these names; anything else raises AttributeError. -/
def staffModelFields : List String :=
  ["id", "salon_id", "user_id", "title", "bio", "profile_photo_url",
   "specialties", "certifications", "years_experience", "instagram_handle",
   "tiktok_handle", "portfolio_url", "status", "hire_date",
   "termination_date", "commission_rate", "hourly_rate", "salary",
   "default_schedule", "accepts_walkins", "booking_buffer_mins",
   "service_ids", "display_order", "show_on_booking", "notes",
   "created_at", "updated_at", "salon", "user", "appointments",
   "media_sets", "full_name"]

/-- Client row (models/client.py), restricted to the fields the
scheduling core touches. -/
structure Client where
  id : Nat
  salonId : Nat
  email : Option String := none
  visitCount : Nat := 0
  totalSpent : ℚ := 0
  averageTicket : ℚ := 0
  loyaltyTier : String := "bronze"
  cancellationCount : Nat := 0
  noShowCount : Nat := 0
  lastVisit : Option Int := none
  isActive : Bool := true
deriving DecidableEq, Repr

/-- Salon row (models/salon.py), restricted to booking configuration. -/
structure Salon where
  id : Nat
  slug : String
  isActive : Bool := true
  bookingLeadTimeHours : Nat := 2
  bookingWindowDays : Nat := 60
  cancellationPolicyHours : Nat := 24
deriving DecidableEq, Repr

/-- Waitlist entry status (models/waitlist.py, WaitlistStatus). -/
inductive WlStatus
  | pending
  | notified
  | booked
  | expired
  | cancelled
deriving DecidableEq, Repr

/-- Waitlist priority (models/waitlist.py, WaitlistPriority), declared in
the order low, normal, high, vip. -/
inductive WlPriority
  | low
  | normal
  | high
  | vip
deriving DecidableEq, Repr

/-- Waitlist entry row (models/waitlist.py). -/
structure WaitlistEntry where
  id : Nat
  salonId : Nat
  clientName : String := ""
  serviceId : Option Nat := none
  staffId : Option Nat := none
  preferredDate : Int
  flexibleDates : Bool := false
  flexibleStaff : Bool := true
  status : WlStatus := .pending
  priority : WlPriority := .normal
  notificationCount : Nat := 0
  lastNotifiedAt : Option Int := none
  createdAt : Int := 0
deriving DecidableEq, Repr

/-- The database: one list per table used by the scheduling core. -/
structure SalonDB where
  salons : List Salon := []
  staffs : List Staff := []
  services : List Service := []
  clients : List Client := []
  appointments : List Appointment := []
  serviceLines : List ServiceLine := []
  waitlist : List WaitlistEntry := []
deriving DecidableEq, Repr

/-! ### Small query helpers (SQLAlchemy .filter(...).first() lookups) -/

def findStaff (db : SalonDB) (id : Nat) : Option Staff :=
  db.staffs.find? fun s => s.id == id

def findService (db : SalonDB) (id : Nat) : Option Service :=
  db.services.find? fun s => s.id == id

def findClient (db : SalonDB) (id : Nat) : Option Client :=
  db.clients.find? fun c => c.id == id

def findAppt (db : SalonDB) (id : Nat) : Option Appointment :=
  db.appointments.find? fun a => a.id == id

/-- Replaces the appointment with the given id by `f` of it (the ORM
mutates the mapped object in place; db.commit() persists it). -/
def updateAppt (db : SalonDB) (id : Nat) (f : Appointment → Appointment) :
    SalonDB :=
  { db with appointments := db.appointments.map fun a => if a.id = id then f a else a }

/-- Replaces the client with the given id by `f` of it. -/
def updateClient (db : SalonDB) (id : Nat) (f : Client → Client) : SalonDB :=
  { db with clients := db.clients.map fun c => if c.id = id then f c else c }

/-! ### ConflictDetector -/

/-- SchedulingService._times_overlap (scheduling_service.py line 562):
half-open interval overlap. -/
def timesOverlap (start1 end1 start2 end2 : Int) : Bool :=
  start1 < end2 && end1 > start2

/-- Row predicate of the conflict query in
SchedulingService.check_conflicts (scheduling_service.py lines 402-430)
and, with identical conditions, AppointmentService.check_conflicts
(services/appointment.py lines 213-235): same staff, status not in
(cancelled, no_show), one of the three OR-ed range conditions, and - only
when the exclude id is truthy (Python `if exclude_appointment_id:`) -
a different appointment id. -/
def schedConflictCond (staffId : Nat) (s e : Int) (ex : Option Nat)
    (a : Appointment) : Prop :=
  a.staffId = staffId ∧
  a.status ≠ .cancelled ∧ a.status ≠ .noShow ∧
  ((a.startTime ≤ s ∧ a.endTime > s) ∨
   (a.startTime < e ∧ a.endTime ≥ e) ∨
   (a.startTime ≥ s ∧ a.endTime ≤ e)) ∧
  (match ex with
   | some i => i = 0 ∨ a.id ≠ i
   | none => True)

instance (staffId : Nat) (s e : Int) (ex : Option Nat) (a : Appointment) :
    Decidable (schedConflictCond staffId s e ex a) := by
  unfold schedConflictCond
  cases ex <;> exact inferInstance

/-- SchedulingService.check_conflicts (scheduling_service.py lines
387-432): list of conflicting appointments. -/
def schedCheckConflicts (db : SalonDB) (staffId : Nat) (s e : Int)
    (ex : Option Nat) : List Appointment :=
  db.appointments.filter fun a => decide (schedConflictCond staffId s e ex a)

/-- AppointmentService.check_conflicts (services/appointment.py lines
203-238); its filter conditions are literally those of
schedConflictCond. -/
def apptSvcCheckConflicts (db : SalonDB) (staffId : Nat) (s e : Int)
    (ex : Option Nat) : List Appointment :=
  db.appointments.filter fun a => decide (schedConflictCond staffId s e ex a)

/-- Row predicate of the inline conflict query in the create_appointment
route (api/appointments.py lines 94-99): same staff, status not in
(cancelled,) - NO_SHOW is NOT excluded there - and the direct half-open
overlap conditions. -/
def createApptConflictCond (staffId : Nat) (s e : Int) (a : Appointment) :
    Prop :=
  a.staffId = staffId ∧ a.status ≠ .cancelled ∧
  a.startTime < e ∧ a.endTime > s

instance (staffId : Nat) (s e : Int) (a : Appointment) :
    Decidable (createApptConflictCond staffId s e a) := by
  unfold createApptConflictCond
  exact inferInstance

/-- Conflict lookup of create_appointment (`.first()` on the query). -/
def createApptConflict (db : SalonDB) (staffId : Nat) (s e : Int) :
    Option Appointment :=
  db.appointments.find? fun a => decide (createApptConflictCond staffId s e a)

/-- Reference predicate: an active appointment (status outside the
terminal-excluded set cancelled/no_show) of the given staff overlapping
the half-open range, spec section 4.2. -/
def activeOverlap (staffId : Nat) (s e : Int) (a : Appointment) : Prop :=
  a.staffId = staffId ∧ a.status ≠ .cancelled ∧ a.status ≠ .noShow ∧
  a.startTime < e ∧ a.endTime > s

instance (staffId : Nat) (s e : Int) (a : Appointment) :
    Decidable (activeOverlap staffId s e a) := by
  unfold activeOverlap
  exact inferInstance

/-- Boolean form: some active appointment of the staff overlaps. -/
def activeOverlapExists (db : SalonDB) (staffId : Nat) (s e : Int) : Bool :=
  db.appointments.any fun a => decide (activeOverlap staffId s e a)

/-! ### BookingTransaction -/

/-- One entry of AppointmentCreate.services
(schemas/appointment.py, AppointmentServiceItem). -/
structure SvcItem where
  serviceId : Nat
  price : Option ℚ := none
  durationMins : Option Nat := none
  sequence : Nat := 0
deriving DecidableEq, Repr

/-- AppointmentCreate (schemas/appointment.py).  The schema defines
client_id, staff_id, start_time, salon_id, services, source,
client_notes, deposit_amount (and recurring fields not used here); it
defines NO `notes` field, which matters for SchedulingService.book. -/
structure ApptCreate where
  salonId : Nat
  clientId : Nat
  staffId : Nat
  startTime : Int
  services : List SvcItem
  source : String := "online"
  clientNotes : Option String := none
  depositAmount : Option ℚ := none
deriving DecidableEq, Repr

/-- A service line resolved against the catalog (price/duration override
applied). -/
structure ResolvedItem where
  serviceId : Nat
  price : ℚ
  durationMins : Nat
  sequence : Nat
deriving DecidableEq, Repr

def totalDurationOf (items : List ResolvedItem) : Nat :=
  (items.map ResolvedItem.durationMins).sum

def totalPriceOf (items : List ResolvedItem) : ℚ :=
  (items.map ResolvedItem.price).sum

/-- Errors of SchedulingService.book. -/
inductive BookErr
  | serviceNotFound (id : Nat)
  | conflict (count : Nat)
  | attributeErr (attr : String)
deriving DecidableEq, Repr

/-- Service-resolution loop of SchedulingService.book
(scheduling_service.py lines 252-268).  The catalog lookup has no salon
filter there.  Python `svc.duration_mins or service.total_duration` falls
back on a falsy (missing or zero) override; the price override only on a
missing one. -/
def resolveBookItems (db : SalonDB) (services : List SvcItem) :
    Except BookErr (List ResolvedItem) :=
  services.mapM fun svc =>
    match findService db svc.serviceId with
    | none => .error (.serviceNotFound svc.serviceId)
    | some service =>
        .ok { serviceId := svc.serviceId
              price := svc.price.getD service.price
              durationMins :=
                match svc.durationMins with
                | some d => if d = 0 then service.totalDuration else d
                | none => service.totalDuration
              sequence := svc.sequence }

/-- SchedulingService.book (scheduling_service.py lines 226-320).
Resolves the services, computes the end time, runs check_conflicts and
rejects on any conflict.  When the slot is clear the code then evaluates
`Appointment(..., notes=data.notes, ...)` (line 295); AppointmentCreate
has no `notes` attribute, and the Appointment model has no `notes`
column either, so this raises AttributeError before db.add - the
function can never persist an appointment. -/
def book (db : SalonDB) (data : ApptCreate) : SalonDB × Except BookErr Appointment :=
  match resolveBookItems db data.services with
  | .error e => (db, .error e)
  | .ok items =>
      let endTime := data.startTime + (totalDurationOf items : Int)
      let conflicts := schedCheckConflicts db data.staffId data.startTime endTime none
      if conflicts.isEmpty then
        (db, .error (.attributeErr "notes"))
      else
        (db, .error (.conflict conflicts.length))

/-- Errors of the create_appointment route (api/appointments.py). -/
inductive ApiErr
  | clientNotFound
  | staffNotFound
  | serviceNotFound (id : Nat)
  | conflict
  | badSource
  | notFound
deriving DecidableEq, Repr

/-- Values accepted by the AppointmentSource enum coercion
(models/appointment.py); any other source string raises ValueError. -/
def apptSourceValues : List String :=
  ["online", "phone", "walk_in", "recurring", "rebook"]

/-- Service-resolution loop of create_appointment (api/appointments.py
lines 68-88); unlike book, the lookup is filtered by salon. -/
def resolveApiItems (db : SalonDB) (salonId : Nat) (services : List SvcItem) :
    Except ApiErr (List ResolvedItem) :=
  services.mapM fun svc =>
    match db.services.find? (fun s => s.id == svc.serviceId && s.salonId == salonId) with
    | none => .error (.serviceNotFound svc.serviceId)
    | some service =>
        .ok { serviceId := svc.serviceId
              price := svc.price.getD service.price
              durationMins :=
                match svc.durationMins with
                | some d => if d = 0 then service.totalDuration else d
                | none => service.totalDuration
              sequence := svc.sequence }

/-- Validation prelude of create_appointment (api/appointments.py lines
47-88 plus the AppointmentSource coercion of line 116): client and staff
must belong to the salon, every service must resolve, the source string
must be a valid AppointmentSource value. -/
def createApptPrelude (db : SalonDB) (salonId : Nat) (req : ApptCreate) :
    Except ApiErr (List ResolvedItem) :=
  match db.clients.find? (fun c => c.id == req.clientId && c.salonId == salonId) with
  | none => .error .clientNotFound
  | some _ =>
      match db.staffs.find? (fun s => s.id == req.staffId && s.salonId == salonId) with
      | none => .error .staffNotFound
      | some _ =>
          match resolveApiItems db salonId req.services with
          | .error e => .error e
          | .ok items =>
              if apptSourceValues.contains req.source then .ok items
              else .error .badSource

/-- Conflict-check phase of create_appointment (api/appointments.py lines
90-105): one database read of the inline conflict query. -/
def createApptCheckClear (db : SalonDB) (req : ApptCreate)
    (items : List ResolvedItem) : Bool :=
  let endTime := req.startTime + (totalDurationOf items : Int)
  (createApptConflict db req.staffId req.startTime endTime).isNone

/-- Persist phase of create_appointment (api/appointments.py lines
107-140): builds the Appointment row and one AppointmentService row per
resolved item, committed as one unit. -/
def createApptPersist (db : SalonDB) (salonId : Nat) (req : ApptCreate)
    (items : List ResolvedItem) (newId lineIdBase createdById : Nat)
    (now : Int) : SalonDB × Appointment :=
  let appt : Appointment :=
    { id := newId
      salonId := salonId
      clientId := req.clientId
      staffId := req.staffId
      startTime := req.startTime
      endTime := req.startTime + (totalDurationOf items : Int)
      durationMins := totalDurationOf items
      status := .scheduled
      source := req.source
      estimatedTotal := some (totalPriceOf items)
      clientNotes := req.clientNotes
      depositAmount := req.depositAmount.getD 0
      createdById := some createdById
      updatedAt := now }
  let lines := items.enum.map fun p =>
    ({ id := lineIdBase + p.1
       appointmentId := newId
       serviceId := p.2.serviceId
       price := p.2.price
       durationMins := p.2.durationMins
       sequence := p.2.sequence } : ServiceLine)
  ({ db with
      appointments := db.appointments ++ [appt]
      serviceLines := db.serviceLines ++ lines }, appt)

/-- create_appointment route (api/appointments.py lines 33-142),
assembled from its prelude, conflict-check and persist phases.  An error
raised before db.commit() leaves the database unchanged. -/
def createAppointment (db : SalonDB) (salonId : Nat) (req : ApptCreate)
    (newId lineIdBase createdById : Nat) (now : Int) :
    SalonDB × Except ApiErr Appointment :=
  match createApptPrelude db salonId req with
  | .error e => (db, .error e)
  | .ok items =>
      if createApptCheckClear db req items then
        let r := createApptPersist db salonId req items newId lineIdBase createdById now
        (r.1, .ok r.2)
      else
        (db, .error .conflict)

/-! ### AppointmentStateMachine (status routes and services) -/

/-- AppointmentStatusUpdate (schemas/appointment.py).  The pydantic
pattern restricts status to the seven valid value strings, so it is
modelled directly as ApptStatus. -/
structure StatusUpdate where
  status : ApptStatus
  notes : Option String := none
  cancellationReason : Option String := none
  cancellationFee : Option ℚ := none
deriving DecidableEq, Repr

/-- Status-specific side effects of update_appointment_status
(api/appointments.py lines 308-324), applied to the appointment row. -/
def statusSideEffects (su : StatusUpdate) (now : Int) (a : Appointment) :
    Appointment :=
  match su.status with
  | .checkedIn => { a with checkedInAt := some now }
  | .inProgress => { a with startedAt := some now }
  | .completed => { a with completedAt := some now }
  | .cancelled =>
      let a := { a with cancelledAt := some now,
                        cancellationReason := su.cancellationReason }
      match su.cancellationFee with
      | some f => if f = 0 then a else { a with cancellationFee := f }
      | none => a
  | .noShow => { a with cancelledAt := some now }
  | _ => a

/-- update_appointment_status route (api/appointments.py lines 288-333).
It performs NO transition validation: the requested status is assigned
unconditionally, then per-status side effects run (a no_show also
increments the client's no-show counter when the client row exists, the
Python `if appointment.client:` guard).  Truthy notes become
staff_notes. -/
def updateAppointmentStatus (db : SalonDB) (apptId : Nat) (su : StatusUpdate)
    (now : Int) : SalonDB × Except ApiErr Appointment :=
  match findAppt db apptId with
  | none => (db, .error .notFound)
  | some a =>
      let a1 := statusSideEffects su now { a with status := su.status }
      let a2 :=
        match su.notes with
        | some s => if s = "" then a1 else { a1 with staffNotes := some s }
        | none => a1
      let a3 := { a2 with updatedAt := now }
      let db1 := updateAppt db apptId fun _ => a3
      let db2 :=
        if su.status = .noShow ∧ (findClient db a.clientId).isSome then
          updateClient db1 a.clientId fun c =>
            { c with noShowCount := c.noShowCount + 1 }
        else db1
      (db2, .ok a3)

/-- check_in_appointment route (api/appointments.py lines 336-365): the
only status route that validates the current state.  The 400 error
carries the current status (the f-string names it). -/
inductive CheckInErr
  | notFound
  | invalidStatus (current : ApptStatus)
deriving DecidableEq, Repr

def checkInAppointment (db : SalonDB) (apptId : Nat) (now : Int) :
    SalonDB × Except CheckInErr Appointment :=
  match findAppt db apptId with
  | none => (db, .error .notFound)
  | some a =>
      if a.status ≠ .scheduled ∧ a.status ≠ .confirmed then
        (db, .error (.invalidStatus a.status))
      else
        let a1 := { a with status := .checkedIn, checkedInAt := some now,
                           updatedAt := now }
        (updateAppt db apptId fun _ => a1, .ok a1)

/-- AppointmentService.update_status (services/appointment.py lines
121-149): assigns the requested status with NO transition validation,
records the per-status timestamp, and routes notes to
cancellation_reason (for cancelled) or staff_notes (otherwise). -/
def svcUpdateStatus (db : SalonDB) (apptId : Nat) (status : ApptStatus)
    (notes : Option String) (now : Int) : SalonDB × Except ApiErr Appointment :=
  match findAppt db apptId with
  | none => (db, .error .notFound)
  | some a =>
      let a1 := { a with status := status }
      let a2 :=
        match status with
        | .checkedIn => { a1 with checkedInAt := some now }
        | .inProgress => { a1 with startedAt := some now }
        | .completed => { a1 with completedAt := some now }
        | .cancelled =>
            match notes with
            | some s => if s = "" then { a1 with cancelledAt := some now }
                        else { a1 with cancelledAt := some now,
                                       cancellationReason := some s }
            | none => { a1 with cancelledAt := some now }
        | _ => a1
      let a3 :=
        match notes with
        | some s =>
            if s = "" ∨ status = .cancelled then a2
            else { a2 with staffNotes := some s }
        | none => a2
      (updateAppt db apptId fun _ => a3, .ok a3)

/-- AppointmentCheckout (schemas/appointment.py), restricted to the
field the completion route reads. -/
structure Checkout where
  finalTotal : ℚ
deriving DecidableEq, Repr

/-- Client-stat mutation of complete_appointment (api/appointments.py
lines 417-420): visit_count + 1, last_visit, total_spent +
final_total.  Neither loyalty_tier nor average_ticket is touched here
(contrast updateVisitStats in ClientService). -/
def completeClientUpdate (finalTotal : ℚ) (now : Int) (c : Client) : Client :=
  { c with visitCount := c.visitCount + 1
           lastVisit := some now
           totalSpent := c.totalSpent + finalTotal }

/-- complete_appointment route (api/appointments.py lines 394-429).  It
has NO guard on the current status: every call assigns completed,
records completed_at and final_total, and - when the client row exists -
applies completeClientUpdate.  The loyalty tier is NOT recomputed on
this path. -/
def completeAppointment (db : SalonDB) (apptId : Nat) (checkout : Checkout)
    (now : Int) : SalonDB × Except ApiErr Appointment :=
  match findAppt db apptId with
  | none => (db, .error .notFound)
  | some a =>
      let a1 := { a with status := .completed, completedAt := some now,
                         finalTotal := some checkout.finalTotal,
                         updatedAt := now }
      let db1 := updateAppt db apptId fun _ => a1
      let db2 :=
        if (findClient db a.clientId).isSome then
          updateClient db1 a.clientId (completeClientUpdate checkout.finalTotal now)
        else db1
      (db2, .ok a1)

/-- cancel_appointment route (api/appointments.py lines 432-461), the
staff-side cancellation: no deadline or status check at all; assigns
cancelled, records cancelled_at and the reason, and increments the
client's cancellation counter when the client row exists. -/
def cancelAppointment (db : SalonDB) (apptId : Nat) (reason : Option String)
    (now : Int) : SalonDB × Except ApiErr Appointment :=
  match findAppt db apptId with
  | none => (db, .error .notFound)
  | some a =>
      let a1 := { a with status := .cancelled, cancelledAt := some now,
                         cancellationReason := reason, updatedAt := now }
      let db1 := updateAppt db apptId fun _ => a1
      let db2 :=
        if (findClient db a.clientId).isSome then
          updateClient db1 a.clientId fun c =>
            { c with cancellationCount := c.cancellationCount + 1 }
        else db1
      (db2, .ok a1)

/-- ClientService._calculate_loyalty_tier (services/client.py lines
129-137). -/
def calcLoyaltyTier (totalSpent : ℚ) : String :=
  if totalSpent ≥ 5000 then "platinum"
  else if totalSpent ≥ 2500 then "gold"
  else if totalSpent ≥ 1000 then "silver"
  else "bronze"

/-- ClientService.update_visit_stats (services/client.py lines 105-127):
the one place that recomputes average_ticket and the loyalty tier. -/
def updateVisitStats (c : Client) (appointmentTotal : ℚ) (now : Int) : Client :=
  let visits := c.visitCount + 1
  let spent := c.totalSpent + appointmentTotal
  { c with visitCount := visits
           lastVisit := some now
           totalSpent := spent
           averageTicket := spent / (visits : ℚ)
           loyaltyTier := calcLoyaltyTier spent }

/-- update_appointment route, PUT (api/appointments.py lines 254-281):
applies every set field of AppointmentUpdate with setattr, except
"services".  In particular a new start_time is assigned WITHOUT
recomputing end_time. -/
structure ApptUpdate where
  staffId : Option Nat := none
  startTime : Option Int := none
  clientNotes : Option String := none
  staffNotes : Option String := none
  internalNotes : Option String := none
  estimatedTotal : Option ℚ := none
deriving DecidableEq, Repr

def applyApptUpdate (u : ApptUpdate) (a : Appointment) : Appointment :=
  let a := match u.staffId with | some v => { a with staffId := v } | none => a
  let a := match u.startTime with | some v => { a with startTime := v } | none => a
  let a := match u.clientNotes with | some v => { a with clientNotes := some v } | none => a
  let a := match u.staffNotes with | some v => { a with staffNotes := some v } | none => a
  let a := match u.internalNotes with | some v => { a with internalNotes := some v } | none => a
  match u.estimatedTotal with | some v => { a with estimatedTotal := some v } | none => a

def updateAppointment (db : SalonDB) (apptId : Nat) (u : ApptUpdate)
    (now : Int) : SalonDB × Except ApiErr Appointment :=
  match findAppt db apptId with
  | none => (db, .error .notFound)
  | some a =>
      let a1 := { applyApptUpdate u a with updatedAt := now }
      (updateAppt db apptId fun _ => a1, .ok a1)

/-- SchedulingService.reschedule (scheduling_service.py lines 322-385):
recomputes the end time from the unchanged duration, re-runs
check_conflicts excluding the appointment itself, and on success assigns
start_time and end_time together (and the staff when the new staff id is
truthy). -/
def reschedule (db : SalonDB) (apptId : Nat) (newStartTime : Int)
    (newStaffId : Option Nat) (now : Int) :
    SalonDB × Except BookErr Appointment :=
  match findAppt db apptId with
  | none => (db, .error (.attributeErr "appointment"))
  | some a =>
      let staffId := match newStaffId with
        | some i => if i = 0 then a.staffId else i
        | none => a.staffId
      let newEndTime := newStartTime + (a.durationMins : Int)
      let conflicts :=
        schedCheckConflicts db staffId newStartTime newEndTime (some a.id)
      if conflicts.isEmpty then
        let a1 :=
          let a0 := { a with startTime := newStartTime, endTime := newEndTime }
          let a0 := match newStaffId with
            | some i => if i = 0 then a0 else { a0 with staffId := i }
            | none => a0
          { a0 with updatedAt := now }
        (updateAppt db apptId fun _ => a1, .ok a1)
      else
        (db, .error (.conflict conflicts.length))

/-! ### CancellationPolicyEnforcer (public booking API, api/booking.py) -/

/-- Errors of the public (unauthenticated) booking routes. -/
inductive PubErr
  | salonNotFound
  | serviceNotFound
  | staffNotFound
  | bookingNotFound
  | cannotCancel
  | policyViolation
  | timeFormat
  | leadTime
  | slotCheckReached
  | attributeErr (attr : String)
deriving DecidableEq, Repr

/-- Python `salon.cancellation_policy_hours or 24` (api/booking.py lines
487 and 546): a falsy (NULL or zero) configured value falls back to 24. -/
def effPolicyHours (salon : Salon) : Nat :=
  if salon.cancellationPolicyHours = 0 then 24 else salon.cancellationPolicyHours

/-- cancel_booking route (api/booking.py lines 513-577), the client
self-service cancellation.  The appointment must be scheduled or
confirmed; then `if datetime.now() >= cancellation_deadline:` rejects,
i.e. the cancellation proceeds exactly when now < deadline (strict).
The confirmation code is compared after `.upper()`; the model takes the
already-uppercased code. -/
def cancelBooking (db : SalonDB) (now : Int) (slug email code : String) :
    SalonDB × Except PubErr Unit :=
  match db.salons.find? (fun s => s.slug == slug) with
  | none => (db, .error .salonNotFound)
  | some salon =>
      match db.clients.find? (fun c => c.salonId == salon.id && c.email == some email) with
      | none => (db, .error .bookingNotFound)
      | some client =>
          match db.appointments.find? (fun a =>
              a.salonId == salon.id && a.clientId == client.id &&
              a.confirmationCode == some code) with
          | none => (db, .error .bookingNotFound)
          | some appt =>
              if appt.status ≠ .scheduled ∧ appt.status ≠ .confirmed then
                (db, .error .cannotCancel)
              else
                let deadline := appt.startTime - (effPolicyHours salon : Int) * 60
                if now ≥ deadline then
                  (db, .error .policyViolation)
                else
                  let a1 := { appt with
                    status := .cancelled
                    cancelledAt := some now
                    cancelledBy := some "client"
                    cancellationReason := some "Cancelled by client online" }
                  (updateAppt db appt.id fun _ => a1, .ok ())

/-- can_cancel / can_reschedule flag of lookup_booking (api/booking.py
lines 487-491): strict `datetime.now() < cancellation_deadline` and a
scheduled/confirmed status. -/
def lookupCanModify (now : Int) (salon : Salon) (appt : Appointment) : Bool :=
  decide (now < appt.startTime - (effPolicyHours salon : Int) * 60) &&
    (appt.status == .scheduled || appt.status == .confirmed)

/-! ### AvailabilityCalculator (SchedulingService.get_availability) -/

/-- Errors raised by get_availability. -/
inductive AvailErr
  | valueErr (msg : String)
  | attributeErr (attr : String)
deriving DecidableEq, Repr

/-- Slot-generation while-loop of get_availability
(scheduling_service.py lines 129-154), fuel-recursive: starting at
`cur`, every 15 minutes (self.slot_interval) while `cur + duration`
stays within the work end; a candidate survives when it overlaps no
existing appointment (the checked range adds the service buffers to the
duration).  The returned value is the slot start time (the code wraps it
in a dict together with `cur + duration` and stylist data). -/
def slotsFrom (existing : List Appointment) (duration buffer : Nat)
    (endDT : Int) : Nat → Int → List Int
  | 0, _ => []
  | fuel + 1, cur =>
      if cur + (duration : Int) ≤ endDT then
        let slotEnd := cur + ((duration + buffer : Nat) : Int)
        let ok := existing.all fun a =>
          !(timesOverlap cur slotEnd a.startTime a.endTime)
        (if ok then [cur] else []) ++
          slotsFrom existing duration buffer endDT fuel (cur + 15)
      else []

/-- Body of get_availability after the is_active read
(scheduling_service.py lines 68-156): schedule lookup for the weekday,
the day's existing non-cancelled/non-no-show appointments, the buffer
sum over the requested services, the same-day rounding (round now up to
the next 15-minute boundary - `datetime.replace` raises ValueError when
the bumped minute reaches 60 - then at least now + 30 minutes lead), and
the slot walk.  Weekdays are targetDay % 7. -/
def availabilitySlots (db : SalonDB) (now : Int) (stylist : Staff)
    (targetDay : Int) (duration : Nat) (serviceIds : List Nat) :
    Except AvailErr (List Int) :=
  match stylist.schedule.lookup (targetDay % 7) with
  | none => .ok []
  | some ds =>
      if !ds.working then .ok []
      else
        let dayStart := targetDay * 1440
        let dayEnd := targetDay * 1440 + 1439
        let existing := db.appointments.filter fun a => decide
          (a.staffId = stylist.id ∧ dayStart ≤ a.startTime ∧
           a.startTime ≤ dayEnd ∧ a.status ≠ .cancelled ∧ a.status ≠ .noShow)
        let totalBuffer := serviceIds.foldl (fun acc sid =>
          match findService db sid with
          | some s => acc + s.bufferBeforeMins + s.bufferAfterMins
          | none => acc) 0
        let workStart := targetDay * 1440 + (ds.startMin : Int)
        let endDT := targetDay * 1440 + (ds.endMin : Int)
        let curE : Except AvailErr Int :=
          if targetDay = now / 1440 then
            let minuteOfHour := now % 60
            let minutesPast := minuteOfHour % 15
            if minutesPast > 0 then
              if minuteOfHour - minutesPast + 15 ≥ 60 then
                .error (.valueErr "minute must be in 0..59")
              else .ok (max (now - minutesPast + 15) (now + 30))
            else .ok (max now (now + 30))
          else .ok workStart
        match curE with
        | .error e => .error e
        | .ok cur =>
            let fuel := ((endDT - cur).toNat / 15) + 1
            .ok (slotsFrom existing duration totalBuffer endDT fuel cur)

/-- SchedulingService.get_availability (scheduling_service.py lines
36-156).  After the stylist lookup the code reads `stylist.is_active`
(line 65); the Staff model defines no such attribute (staffModelFields),
so the read raises AttributeError and the schedule walk - the body
modelled by availabilitySlots - is never reached. -/
def getAvailability (db : SalonDB) (now : Int) (stylistId : Nat)
    (targetDay : Int) (duration : Nat) (serviceIds : List Nat) :
    Except AvailErr (List Int) :=
  match findStaff db stylistId with
  | none => .error (.valueErr "Stylist not found")
  | some stylist =>
      if staffModelFields.contains "is_active" then
        availabilitySlots db now stylist targetDay duration serviceIds
      else
        .error (.attributeErr "is_active")

/-! ### WaitlistMatcher (api/waitlist.py) -/

/-- Database sort rank of a waitlist priority.  The priority column is a
native PostgreSQL enum (models/waitlist.py declares Enum(WaitlistPriority)
with members in the order low, normal, high, vip, and the default
DATABASE_URL is PostgreSQL); a native enum orders by declaration order,
so `priority.desc()` sorts vip, high, normal, low. -/
def priorityRank : WlPriority → Nat
  | .low => 0
  | .normal => 1
  | .high => 2
  | .vip => 3

/-- Ordering of `ORDER BY priority DESC, created_at ASC` on waitlist
entries. -/
def wlLE (a b : WaitlistEntry) : Prop :=
  priorityRank b.priority < priorityRank a.priority ∨
    (priorityRank a.priority = priorityRank b.priority ∧ a.createdAt ≤ b.createdAt)

instance : DecidableRel wlLE := fun a b => by
  unfold wlLE
  exact inferInstance

/-- get_waitlist_for_date route (api/waitlist.py lines 431-455): the
pending/notified entries of the salon with the exact preferred date,
ordered by priority descending then created_at ascending, followed by
the flexible-date pending/notified entries whose preferred date lies in
target plus/minus 3 days (inclusive), same ordering, minus those already
listed.  The ORDER BY is modelled by insertion sort on wlLE. -/
def getWaitlistForDate (db : SalonDB) (salonId : Nat) (targetDate : Int) :
    List WaitlistEntry :=
  let entries := List.insertionSort wlLE (db.waitlist.filter fun e => decide
    (e.salonId = salonId ∧ (e.status = .pending ∨ e.status = .notified) ∧
     e.preferredDate = targetDate))
  let flexibleEntries := List.insertionSort wlLE (db.waitlist.filter fun e => decide
    (e.salonId = salonId ∧ (e.status = .pending ∨ e.status = .notified) ∧
     e.flexibleDates = true ∧ targetDate - 3 ≤ e.preferredDate ∧
     e.preferredDate ≤ targetDate + 3))
  entries ++ flexibleEntries.filter fun e => !(decide (e ∈ entries))

/-! ### Public online booking (api/booking.py create_booking) -/

/-- Names of the methods defined on SchedulingService
(services/scheduling_service.py, class body lines 30-570).  Attribute
lookup on the scheduling_service singleton succeeds exactly for these
(and for the two instance attributes slot_interval and default_buffer). -/
def schedulingServiceMethods : List String :=
  ["__init__", "get_availability", "get_multi_stylist_availability",
   "get_next_available", "book", "reschedule", "check_conflicts",
   "send_reminder", "send_confirmation", "get_upcoming_reminders",
   "_send_reschedule_notification", "_times_overlap",
   "slot_interval", "default_buffer"]

/-- BookingRequest (api/booking.py lines 90-107).  The pydantic pattern
on `time` admits any two-digit pair; hour/minute are modelled as the two
parsed integers. -/
structure BookingReq where
  email : String
  serviceId : Nat
  staffId : Nat
  day : Int
  hour : Nat
  minute : Nat
  firstName : String := ""
  lastName : String := ""
  phone : String := ""
  notes : Option String := none
deriving DecidableEq, Repr

/-- create_booking route (api/booking.py lines 294-443).  Validations in
source order: salon by slug (active), service (active and online
bookable, in the salon), staff (status "active", in the salon), the time
parse (`datetime.min.time().replace(hour=h, minute=m)` raises ValueError
outside 0-23/0-59), the lead-time window (`booking_lead_time_hours or 2`
is truthy-defaulted).  The availability check then evaluates
`scheduling_service.check_slot_available`, an attribute the class does
not define, so the request dies with AttributeError before the client
find-or-create and before any Appointment write. -/
def createBooking (db : SalonDB) (now : Int) (slug : String) (req : BookingReq) :
    SalonDB × Except PubErr Unit :=
  match db.salons.find? (fun s => s.slug == slug && s.isActive) with
  | none => (db, .error .salonNotFound)
  | some salon =>
      match db.services.find? (fun s => s.id == req.serviceId &&
          s.salonId == salon.id && s.isActive && s.isOnlineBookable) with
      | none => (db, .error .serviceNotFound)
      | some _service =>
          match db.staffs.find? (fun s => s.id == req.staffId &&
              s.salonId == salon.id && s.status == "active") with
          | none => (db, .error .staffNotFound)
          | some _staff =>
              if req.hour ≥ 24 ∨ req.minute ≥ 60 then
                (db, .error .timeFormat)
              else
                let apptDT := req.day * 1440 + ((req.hour * 60 + req.minute : Nat) : Int)
                let lead : Nat :=
                  if salon.bookingLeadTimeHours = 0 then 2
                  else salon.bookingLeadTimeHours
                if apptDT < now + (lead : Int) * 60 then
                  (db, .error .leadTime)
                else if schedulingServiceMethods.contains "check_slot_available" then
                  -- Unreachable: the attribute is absent (see the C10
                  -- theorem); the slot check and the booking write would
                  -- only happen beyond this point.
                  (db, .error .slotCheckReached)
                else
                  (db, .error (.attributeErr "check_slot_available"))

/-! ### Concrete fixtures used in the claim theorems and witnesses -/

/-- Salon 1 with the default booking configuration. -/
def salonA : Salon :=
  { id := 1, slug := "glow", isActive := true, bookingLeadTimeHours := 2,
    bookingWindowDays := 60, cancellationPolicyHours := 24 }

/-- Service 1: 30 minutes, price 50, no buffers. -/
def svcA : Service := { id := 1, salonId := 1, price := 50, durationMins := 30 }

/-- Staff 1, active, working weekday 1 (a Tuesday) 09:00-17:00. -/
def staffTue : Staff :=
  { id := 1, salonId := 1, status := "active",
    schedule := [(1, { working := true, startMin := 540, endMin := 1020 })],
    serviceIds := [1] }

/-- Client 1 with zero visit stats and bronze tier. -/
def clientA : Client := { id := 1, salonId := 1, email := some "ana@example.com" }

/-- Base database: one salon, one staff, one service, one client, empty
appointment book. -/
def dbMain : SalonDB :=
  { salons := [salonA], staffs := [staffTue], services := [svcA],
    clients := [clientA] }

/-- Booking request for staff 1 at minute 600 of day 0 with service 1. -/
def reqA : ApptCreate :=
  { salonId := 1, clientId := 1, staffId := 1, startTime := 600,
    services := [{ serviceId := 1 }] }

/-- The same request shifted to minute 615 (overlapping reqA). -/
def reqB : ApptCreate := { reqA with startTime := 615 }

/-- Resolution of reqA's single service against the catalog. -/
def itemA : ResolvedItem :=
  { serviceId := 1, price := 50, durationMins := 30, sequence := 0 }

/-- Appointment row that create_appointment persists for reqA (ids 10 /
line id 100, created by user 7, at clock 0). -/
def apptA : Appointment :=
  { id := 10, salonId := 1, clientId := 1, staffId := 1, startTime := 600,
    endTime := 630, durationMins := 30, status := .scheduled,
    estimatedTotal := some 50, createdById := some 7 }

/-- Service line persisted together with apptA. -/
def lineA : ServiceLine :=
  { id := 100, appointmentId := 10, serviceId := 1, price := 50,
    durationMins := 30, sequence := 0 }

/-- A no-show appointment of staff 1 covering minutes 600-630. -/
def apptNoShow : Appointment :=
  { id := 1, salonId := 1, clientId := 1, staffId := 1, startTime := 600,
    endTime := 630, durationMins := 30, status := .noShow }

/-- dbMain plus the no-show appointment. -/
def dbNoShow : SalonDB := { dbMain with appointments := [apptNoShow] }

/-- A completed (terminal) appointment of staff 1. -/
def apptDone : Appointment :=
  { id := 1, salonId := 1, clientId := 1, staffId := 1, startTime := 600,
    endTime := 660, durationMins := 60, status := .completed }

/-- dbMain plus the completed appointment. -/
def dbDone : SalonDB := { dbMain with appointments := [apptDone] }

/-- A scheduled appointment of staff 1, minutes 600-660. -/
def apptSched : Appointment :=
  { id := 1, salonId := 1, clientId := 1, staffId := 1, startTime := 600,
    endTime := 660, durationMins := 60, status := .scheduled }

/-- dbMain plus the scheduled appointment. -/
def dbSched : SalonDB := { dbMain with appointments := [apptSched] }

/-- An in-progress appointment of staff 1 for client 1. -/
def apptInProg : Appointment :=
  { id := 1, salonId := 1, clientId := 1, staffId := 1, startTime := 600,
    endTime := 660, durationMins := 60, status := .inProgress }

/-- dbMain plus the in-progress appointment. -/
def dbInProg : SalonDB := { dbMain with appointments := [apptInProg] }

/-- A scheduled appointment with a confirmation code, starting at minute
10000 (policy deadline 10000 - 24*60 = 8560). -/
def apptConf : Appointment :=
  { id := 1, salonId := 1, clientId := 1, staffId := 1, startTime := 10000,
    endTime := 10060, durationMins := 60, status := .scheduled,
    confirmationCode := some "ABC123" }

/-- dbMain plus the confirmable appointment. -/
def dbConf : SalonDB := { dbMain with appointments := [apptConf] }

/-- Public booking request matching dbMain (day 8, 10:00). -/
def pubReqA : BookingReq :=
  { email := "ana@example.com", serviceId := 1, staffId := 1, day := 8,
    hour := 10, minute := 0 }

/-- Slot list produced for the section-8 availability scenario: 09:35,
09:50, ..., 15:50 on day 8 (absolute minutes 12095 + 15k, k < 26). -/
def scenarioSlots : List Int :=
  (List.range 26).map fun k => 12095 + 15 * (k : Int)

/-- Appointment row that create_appointment persists for reqB (id 11). -/
def apptB : Appointment := { apptA with id := 11, startTime := 615, endTime := 645 }

/-! ## Theorems -/

/-- Unfolding membership in the SchedulingService conflict query. -/
theorem mem_schedCheckConflicts {db : SalonDB} {staffId : Nat} {s e : Int}
    {ex : Option Nat} {a : Appointment} :
    a ∈ schedCheckConflicts db staffId s e ex ↔
      a ∈ db.appointments ∧ schedConflictCond staffId s e ex a := by
  simp [schedCheckConflicts, List.mem_filter]

/-- Unfolding membership in the AppointmentService conflict query. -/
theorem mem_apptSvcCheckConflicts {db : SalonDB} {staffId : Nat} {s e : Int}
    {ex : Option Nat} {a : Appointment} :
    a ∈ apptSvcCheckConflicts db staffId s e ex ↔
      a ∈ db.appointments ∧ schedConflictCond staffId s e ex a := by
  simp [apptSvcCheckConflicts, List.mem_filter]

/-- With a well-formed query range and a well-formed stored interval, the
three OR-ed range conditions of the conflict queries coincide with the
half-open overlap rule. -/
theorem orRange_iff_overlap {s e a1 a2 : Int} (hse : s < e) (hwf : a1 < a2) :
    ((a1 ≤ s ∧ a2 > s) ∨ (a1 < e ∧ a2 ≥ e) ∨ (a1 ≥ s ∧ a2 ≤ e)) ↔
      (a1 < e ∧ a2 > s) := by
  omega

/-- C1.  The claim reads: a booking request with an overlapping active
appointment is rejected with a conflict error and persists nothing; a
clear one persists the appointment plus all service lines atomically
with status Scheduled.  SchedulingService.book violates the second half:
on the fixture (no appointment at all, so no active overlap) it raises
AttributeError - AppointmentCreate has no `notes` attribute (line 295) -
and persists nothing.  The create_appointment route, evaluated at the
same fixture, does behave as claimed: it persists the appointment and
its service line as one unit with status Scheduled. -/
theorem C1_book_never_persists :
    activeOverlapExists dbMain 1 600 630 = false ∧
    book dbMain reqA = (dbMain, .error (.attributeErr "notes")) ∧
    createAppointment dbMain 1 reqA 10 100 7 0 =
      ({ dbMain with appointments := [apptA], serviceLines := [lineA] },
       .ok apptA) := by
  with_unfolding_all decide

/-- C2.  Two concurrent create_appointment calls for staff 1 with
overlapping ranges (600-630 and 615-645): when both conflict checks read
the initial state before either persist runs - an interleaving nothing
in the code prevents, as there is no lock, retry loop or exclusion
constraint between the check and the commit - both calls succeed and the
final state holds two overlapping non-cancelled appointments for the
same staff, contradicting the claimed guarantee. -/
theorem C2_interleaved_double_booking :
    createApptPrelude dbMain 1 reqA = .ok [itemA] ∧
    createApptPrelude dbMain 1 reqB = .ok [itemA] ∧
    createApptCheckClear dbMain reqA [itemA] = true ∧
    createApptCheckClear dbMain reqB [itemA] = true ∧
    (createApptPersist ((createApptPersist dbMain 1 reqA [itemA] 10 100 7 0).1)
        1 reqB [itemA] 11 101 7 0).1.appointments = [apptA, apptB] ∧
    apptA.staffId = apptB.staffId ∧
    apptA.status = .scheduled ∧ apptB.status = .scheduled ∧
    timesOverlap apptA.startTime apptA.endTime apptB.startTime apptB.endTime =
      true := by
  with_unfolding_all decide

/-- C3 counterexample.  The claim asserts that at every call site the
conflict status filter excludes both Cancelled and NoShow.  At the
create_appointment call site it excludes only Cancelled: on a database
whose single appointment overlaps the queried range with status NoShow,
the inline conflict query returns that appointment, while both
service-layer conflict queries (which do exclude NoShow) return none. -/
theorem C3_noshow_at_create_site :
    apptNoShow.status = .noShow ∧
    createApptConflict dbNoShow 1 600 630 = some apptNoShow ∧
    schedCheckConflicts dbNoShow 1 600 630 none = [] ∧
    apptSvcCheckConflicts dbNoShow 1 600 630 none = [] := by
  with_unfolding_all decide

/-- Pointwise characterization of the shared conflict-query row predicate,
for a well-formed query range, a well-formed stored interval and a
non-zero (non-falsy) exclude id. -/
theorem schedConflictCond_iff {staffId : Nat} {s e : Int} {ex : Option Nat}
    {a : Appointment} (hse : s < e) (hw : a.startTime < a.endTime)
    (hex : ex ≠ some 0) :
    schedConflictCond staffId s e ex a ↔
      (a.staffId = staffId ∧ a.status ≠ .cancelled ∧ a.status ≠ .noShow ∧
       a.startTime < e ∧ a.endTime > s ∧ ∀ i, ex = some i → a.id ≠ i) := by
  unfold schedConflictCond
  cases ex with
  | none =>
      simp only [orRange_iff_overlap hse hw]
      simp [and_assoc]
  | some j =>
      have hj : j ≠ 0 := by
        intro h
        exact hex (by rw [h])
      simp only [orRange_iff_overlap hse hw]
      simp [hj, and_assoc]

/-- C3 amended.  Both service-layer conflict queries
(SchedulingService.check_conflicts and AppointmentService.check_conflicts)
return exactly the staff's appointments, other than the excluded one,
whose status is neither Cancelled nor NoShow and whose interval overlaps
[s, e) under the half-open rule - in particular their three OR-ed range
conditions are equivalent to that rule for stored intervals with a1 < a2
and query ranges with s < e.  The claim's further assertion that the
status filter excludes NoShow at every call site is corrected: the
inline query of create_appointment excludes only Cancelled, so it
reports exactly the staff's non-Cancelled (NoShow included) overlapping
appointments. -/
theorem C3_conflict_queries_characterized (db : SalonDB) (staffId : Nat)
    (s e : Int) (ex : Option Nat) (hse : s < e)
    (hwf : ∀ a ∈ db.appointments, a.startTime < a.endTime)
    (hex : ex ≠ some 0) :
    (∀ a, a ∈ schedCheckConflicts db staffId s e ex ↔
      (a ∈ db.appointments ∧ a.staffId = staffId ∧ a.status ≠ .cancelled ∧
       a.status ≠ .noShow ∧ a.startTime < e ∧ a.endTime > s ∧
       ∀ i, ex = some i → a.id ≠ i)) ∧
    (∀ a, a ∈ apptSvcCheckConflicts db staffId s e ex ↔
      (a ∈ db.appointments ∧ a.staffId = staffId ∧ a.status ≠ .cancelled ∧
       a.status ≠ .noShow ∧ a.startTime < e ∧ a.endTime > s ∧
       ∀ i, ex = some i → a.id ≠ i)) ∧
    ((createApptConflict db staffId s e).isSome ↔
      ∃ a ∈ db.appointments, a.staffId = staffId ∧ a.status ≠ .cancelled ∧
        a.startTime < e ∧ a.endTime > s) := by
  have key : ∀ a, a ∈ db.appointments →
      (schedConflictCond staffId s e ex a ↔
        (a.staffId = staffId ∧ a.status ≠ .cancelled ∧ a.status ≠ .noShow ∧
         a.startTime < e ∧ a.endTime > s ∧ ∀ i, ex = some i → a.id ≠ i)) :=
    fun a ha => schedConflictCond_iff hse (hwf a ha) hex
  refine ⟨fun a => ?_, fun a => ?_, ?_⟩
  · rw [mem_schedCheckConflicts]
    constructor
    · rintro ⟨ha, hc⟩
      exact ⟨ha, (key a ha).mp hc⟩
    · rintro ⟨ha, hc⟩
      exact ⟨ha, (key a ha).mpr hc⟩
  · rw [mem_apptSvcCheckConflicts]
    constructor
    · rintro ⟨ha, hc⟩
      exact ⟨ha, (key a ha).mp hc⟩
    · rintro ⟨ha, hc⟩
      exact ⟨ha, (key a ha).mpr hc⟩
  · unfold createApptConflict
    rw [List.find?_isSome]
    constructor
    · rintro ⟨a, ha, hc⟩
      rw [decide_eq_true_eq] at hc
      exact ⟨a, ha, hc⟩
    · rintro ⟨a, ha, hc⟩
      exact ⟨a, ha, by rw [decide_eq_true_eq]; exact hc⟩

/-- Witness for C3_conflict_queries_characterized at the dbNoShow
fixture with range [600, 630) and no exclude id. -/
theorem C3_conflict_queries_characterized_witness :
    ((600 : Int) < 630 ∧ (∀ a ∈ dbNoShow.appointments, a.startTime < a.endTime) ∧
      (none : Option Nat) ≠ some 0) ∧
    ((createApptConflict dbNoShow 1 600 630).isSome ↔
      ∃ a ∈ dbNoShow.appointments, a.staffId = 1 ∧ a.status ≠ .cancelled ∧
        a.startTime < 630 ∧ a.endTime > 600) :=
  ⟨⟨by norm_num, by with_unfolding_all decide, by simp⟩,
   (C3_conflict_queries_characterized dbNoShow 1 600 630 none (by norm_num)
     (by with_unfolding_all decide) (by simp)).2.2⟩

/-- Status side effects never change the status, timing or duration
fields themselves. -/
theorem statusSideEffects_fields (su : StatusUpdate) (now : Int)
    (a : Appointment) :
    (statusSideEffects su now a).status = a.status ∧
    (statusSideEffects su now a).startTime = a.startTime ∧
    (statusSideEffects su now a).endTime = a.endTime ∧
    (statusSideEffects su now a).durationMins = a.durationMins := by
  obtain ⟨st, n, r, fee⟩ := su
  cases st <;> cases fee <;>
    refine ⟨?_, ?_, ?_, ?_⟩ <;>
      (dsimp only [statusSideEffects] <;> repeat' split) <;> simp

/-- update_appointment_status always succeeds on an existing appointment
and assigns exactly the requested status, leaving timing untouched. -/
theorem updateAppointmentStatus_result {db : SalonDB} {id : Nat}
    {su : StatusUpdate} {now : Int} {a0 : Appointment}
    (h : findAppt db id = some a0) :
    ∃ a', (updateAppointmentStatus db id su now).2 = .ok a' ∧
      a'.status = su.status ∧ a'.startTime = a0.startTime ∧
      a'.endTime = a0.endTime ∧ a'.durationMins = a0.durationMins := by
  unfold updateAppointmentStatus
  rw [h]
  have hf := statusSideEffects_fields su now { a0 with status := su.status }
  refine ⟨_, rfl, ?_, ?_, ?_, ?_⟩ <;>
    (cases hn : su.notes <;> dsimp only <;> repeat' split) <;> simp_all

/-- AppointmentService.update_status always succeeds on an existing
appointment and assigns exactly the requested status. -/
theorem svcUpdateStatus_result {db : SalonDB} {id : Nat}
    {status : ApptStatus} {notes : Option String} {now : Int}
    {a0 : Appointment} (h : findAppt db id = some a0) :
    ∃ a', (svcUpdateStatus db id status notes now).2 = .ok a' ∧
      a'.status = status ∧ a'.startTime = a0.startTime ∧
      a'.endTime = a0.endTime ∧ a'.durationMins = a0.durationMins := by
  unfold svcUpdateStatus
  rw [h]
  refine ⟨_, rfl, ?_, ?_, ?_, ?_⟩ <;>
    (cases status <;> cases hn : notes <;> dsimp only <;> repeat' split) <;>
      simp_all

/-- C4 counterexample.  The claim reads: a transition out of the
terminal state Completed is rejected with an invalid-transition error
and the appointment is left unchanged.  On a database whose appointment
1 is Completed, requesting status Scheduled through
update_appointment_status instead succeeds and rewrites the stored
row. -/
theorem C4_terminal_transition_accepted :
    apptDone.status = .completed ∧
    updateAppointmentStatus dbDone 1 { status := .scheduled } 5 =
      ({ dbDone with
          appointments := [{ apptDone with status := .scheduled, updatedAt := 5 }] },
       .ok { apptDone with status := .scheduled, updatedAt := 5 }) := by
  with_unfolding_all decide

/-- C4 amended.  Only the check-in route validates the lifecycle: it
rejects a check-in unless the current status is Scheduled or Confirmed,
with an error naming the current state and the database unchanged.
update_appointment_status and AppointmentService.update_status accept
every requested status for an existing appointment - including
transitions out of Completed, Cancelled and NoShow - and assign it. -/
theorem C4_transition_enforcement (db : SalonDB) (id : Nat)
    (su : StatusUpdate) (status : ApptStatus) (notes : Option String)
    (now : Int) (a0 : Appointment) (h : findAppt db id = some a0) :
    (∃ a', (updateAppointmentStatus db id su now).2 = .ok a' ∧
      a'.status = su.status) ∧
    (∃ a', (svcUpdateStatus db id status notes now).2 = .ok a' ∧
      a'.status = status) ∧
    (a0.status ≠ .scheduled ∧ a0.status ≠ .confirmed →
      checkInAppointment db id now = (db, .error (.invalidStatus a0.status))) ∧
    (a0.status = .scheduled ∨ a0.status = .confirmed →
      (checkInAppointment db id now).2 =
        .ok { a0 with status := .checkedIn, checkedInAt := some now,
                      updatedAt := now }) := by
  refine ⟨?_, ?_, ?_, ?_⟩
  · obtain ⟨a', h1, h2, _⟩ := @updateAppointmentStatus_result db id su now a0 h
    exact ⟨a', h1, h2⟩
  · obtain ⟨a', h1, h2, _⟩ := @svcUpdateStatus_result db id status notes now a0 h
    exact ⟨a', h1, h2⟩
  · intro hbad
    unfold checkInAppointment
    rw [h]
    dsimp only
    rw [if_pos hbad]
  · intro hok
    unfold checkInAppointment
    rw [h]
    dsimp only
    rw [if_neg]
    push_neg
    intro hns
    rcases hok with h1 | h1
    · exact absurd h1 hns
    · exact h1

/-- Witness for C4_transition_enforcement on the Completed appointment
of dbDone. -/
theorem C4_transition_enforcement_witness :
    findAppt dbDone 1 = some apptDone ∧
    (∃ a', (updateAppointmentStatus dbDone 1 { status := .scheduled } 5).2 =
        .ok a' ∧ a'.status = ApptStatus.scheduled) ∧
    (apptDone.status ≠ .scheduled ∧ apptDone.status ≠ .confirmed →
      checkInAppointment dbDone 1 5 =
        (dbDone, .error (.invalidStatus apptDone.status))) :=
  ⟨by with_unfolding_all decide,
   (C4_transition_enforcement dbDone 1 { status := .scheduled } .scheduled
      none 5 apptDone (by with_unfolding_all decide)).1,
   (C4_transition_enforcement dbDone 1 { status := .scheduled } .scheduled
      none 5 apptDone (by with_unfolding_all decide)).2.2.1⟩

/-- applyApptUpdate never touches duration_mins or end_time. -/
theorem applyApptUpdate_fields (u : ApptUpdate) (a : Appointment) :
    (applyApptUpdate u a).durationMins = a.durationMins ∧
    (applyApptUpdate u a).endTime = a.endTime := by
  obtain ⟨f1, f2, f3, f4, f5, f6⟩ := u
  unfold applyApptUpdate
  cases f1 <;> cases f2 <;> cases f3 <;> cases f4 <;> cases f5 <;> cases f6 <;>
    exact ⟨rfl, rfl⟩

/-- C5 counterexample.  The claim reads: every operation that mutates an
appointment preserves end_time = start_time + duration_minutes.  The
update_appointment route violates it: on the scheduled fixture
(600-660, 60 minutes, invariant holds) an update that sets start_time
to 720 succeeds and leaves end_time at 660, so the stored row no longer
satisfies the invariant. -/
theorem C5_update_start_breaks_invariant :
    apptSched.endTime = apptSched.startTime + (apptSched.durationMins : Int) ∧
    (updateAppointment dbSched 1 { startTime := some 720 } 9).2 =
      .ok { apptSched with startTime := 720, updatedAt := 9 } ∧
    ({ apptSched with startTime := 720, updatedAt := 9 } : Appointment).endTime ≠
      ({ apptSched with startTime := 720, updatedAt := 9 } : Appointment).startTime +
        (({ apptSched with startTime := 720, updatedAt := 9 } :
          Appointment).durationMins : Int) := by
  with_unfolding_all decide

/-- C5 amended.  Creation through create_appointment establishes
end_time = start_time + duration_minutes with duration equal to the sum
of the resolved service-line durations; reschedule recomputes start and
end together leaving the duration unchanged; a status update leaves all
three timing fields unchanged; and update_appointment never changes
duration_mins or end_time - which is exactly why assigning a new
start_time through it breaks the invariant. -/
theorem C5_timing_invariant (db : SalonDB) (salonId : Nat) (req : ApptCreate)
    (items : List ResolvedItem) (newId lineIdBase uid : Nat) (now : Int)
    (apptId : Nat) (t : Int) (newStaffId : Option Nat) (su : StatusUpdate)
    (u : ApptUpdate) (a0 : Appointment) (h : findAppt db apptId = some a0) :
    (∀ db' appt,
        createAppointment db salonId req newId lineIdBase uid now =
          (db', .ok appt) →
        appt.endTime = appt.startTime + (appt.durationMins : Int) ∧
        (createApptPrelude db salonId req = .ok items →
          appt.durationMins = totalDurationOf items)) ∧
    (∀ a', (reschedule db apptId t newStaffId now).2 = .ok a' →
        a'.durationMins = a0.durationMins ∧ a'.startTime = t ∧
        a'.endTime = t + (a0.durationMins : Int)) ∧
    (∀ a', (updateAppointmentStatus db apptId su now).2 = .ok a' →
        a'.startTime = a0.startTime ∧ a'.endTime = a0.endTime ∧
        a'.durationMins = a0.durationMins) ∧
    (∀ a', (updateAppointment db apptId u now).2 = .ok a' →
        a'.durationMins = a0.durationMins ∧ a'.endTime = a0.endTime) := by
  refine ⟨?_, ?_, ?_, ?_⟩
  · intro db' appt heq
    unfold createAppointment at heq
    cases hp : createApptPrelude db salonId req with
    | error e => rw [hp] at heq; simp at heq
    | ok its =>
        rw [hp] at heq
        dsimp only at heq
        split at heq
        · rw [Prod.mk.injEq] at heq
          obtain ⟨-, h2⟩ := heq
          rw [Except.ok.injEq] at h2
          subst h2
          dsimp only [createApptPersist]
          refine ⟨rfl, fun hi => ?_⟩
          rw [Except.ok.injEq] at hi
          rw [hi]
        · simp at heq
  · intro a' heq
    unfold reschedule at heq
    rw [h] at heq
    dsimp only at heq
    split at heq
    · dsimp only at heq
      rw [Except.ok.injEq] at heq
      subst heq
      refine ⟨?_, ?_, ?_⟩ <;>
        (cases newStaffId <;> (dsimp only; repeat' split)) <;> rfl
    · simp at heq
  · intro a' heq
    obtain ⟨a'', h1, -, h3, h4, h5⟩ :=
      @updateAppointmentStatus_result db apptId su now a0 h
    rw [h1, Except.ok.injEq] at heq
    subst heq
    exact ⟨h3, h4, h5⟩
  · intro a' heq
    unfold updateAppointment at heq
    rw [h] at heq
    dsimp only at heq
    rw [Except.ok.injEq] at heq
    subst heq
    exact applyApptUpdate_fields u a0

/-- Witness for C5_timing_invariant on dbSched: rescheduling appointment
1 to minute 800 keeps the duration and re-establishes the invariant. -/
theorem C5_timing_invariant_witness :
    findAppt dbSched 1 = some apptSched ∧
    (∀ a', (reschedule dbSched 1 800 none 9).2 = .ok a' →
        a'.durationMins = apptSched.durationMins ∧ a'.startTime = 800 ∧
        a'.endTime = 800 + (apptSched.durationMins : Int)) :=
  ⟨by with_unfolding_all decide,
   (C5_timing_invariant dbSched 1 reqA [itemA] 10 100 7 9 1 800 none
      { status := .confirmed } { startTime := some 720 } apptSched
      (by with_unfolding_all decide)).2.1⟩

/-- C6.  With deadline = start_time - cancellation_policy_hours (a
non-falsy configured value): the client self-service cancellation of a
Scheduled or Confirmed appointment succeeds exactly when now < deadline
(strict), is rejected with the policy error at or after the deadline,
and on success marks the appointment cancelled by "client"; the
booking-lookup can_cancel/can_reschedule flag uses the same strict
comparison; the staff-side cancel_appointment route always succeeds
regardless of the deadline; and a staff status update to Cancelled may
record a non-zero cancellation fee. -/
theorem C6_cancellation_policy_strict (db : SalonDB) (now : Int)
    (slug email code : String) (salon : Salon) (client : Client)
    (appt : Appointment) (apptId : Nat) (reason : Option String)
    (a0 : Appointment) (fee : ℚ)
    (hs : db.salons.find? (fun s => s.slug == slug) = some salon)
    (hph : salon.cancellationPolicyHours ≠ 0)
    (hc : db.clients.find?
      (fun c => c.salonId == salon.id && c.email == some email) = some client)
    (ha : db.appointments.find? (fun a =>
      a.salonId == salon.id && a.clientId == client.id &&
      a.confirmationCode == some code) = some appt)
    (hst : appt.status = .scheduled ∨ appt.status = .confirmed)
    (h0 : findAppt db apptId = some a0)
    (hfee : fee ≠ 0) :
    ((cancelBooking db now slug email code).2 = .ok () ↔
      now < appt.startTime - (salon.cancellationPolicyHours : Int) * 60) ∧
    (now ≥ appt.startTime - (salon.cancellationPolicyHours : Int) * 60 →
      cancelBooking db now slug email code = (db, .error .policyViolation)) ∧
    (now < appt.startTime - (salon.cancellationPolicyHours : Int) * 60 →
      cancelBooking db now slug email code =
        (updateAppt db appt.id fun _ =>
          { appt with status := .cancelled, cancelledAt := some now,
                      cancelledBy := some "client",
                      cancellationReason := some "Cancelled by client online" },
         .ok ())) ∧
    (lookupCanModify now salon appt = true ↔
      now < appt.startTime - (salon.cancellationPolicyHours : Int) * 60) ∧
    (∃ a', (cancelAppointment db apptId reason now).2 = .ok a' ∧
      a'.status = .cancelled ∧ a'.cancelledAt = some now) ∧
    (∃ a', (updateAppointmentStatus db apptId
        { status := .cancelled, cancellationFee := some fee } now).2 = .ok a' ∧
      a'.status = .cancelled ∧ a'.cancellationFee = fee) := by
  have heff : effPolicyHours salon = salon.cancellationPolicyHours := by
    unfold effPolicyHours
    rw [if_neg hph]
  have hnst : ¬(appt.status ≠ .scheduled ∧ appt.status ≠ .confirmed) := by
    rcases hst with h1 | h1 <;> simp [h1]
  have hcb : cancelBooking db now slug email code =
      if now ≥ appt.startTime - (salon.cancellationPolicyHours : Int) * 60 then
        (db, .error .policyViolation)
      else
        (updateAppt db appt.id fun _ =>
          { appt with status := .cancelled, cancelledAt := some now,
                      cancelledBy := some "client",
                      cancellationReason := some "Cancelled by client online" },
         .ok ()) := by
    unfold cancelBooking
    rw [hs]
    dsimp only
    rw [hc]
    dsimp only
    rw [ha]
    dsimp only
    rw [if_neg hnst]
    rw [heff]
  refine ⟨?_, ?_, ?_, ?_, ?_, ?_⟩
  · rw [hcb]
    by_cases hge : now ≥ appt.startTime - (salon.cancellationPolicyHours : Int) * 60
    · rw [if_pos hge]
      simp
      omega
    · rw [if_neg hge]
      simp
      omega
  · intro hge
    rw [hcb, if_pos hge]
  · intro hlt
    rw [hcb, if_neg (by omega)]
  · unfold lookupCanModify
    rw [heff]
    rcases hst with h1 | h1 <;> simp [h1]
  · unfold cancelAppointment
    rw [h0]
    exact ⟨_, rfl, rfl, rfl⟩
  · unfold updateAppointmentStatus
    rw [h0]
    refine ⟨_, rfl, ?_, ?_⟩
    · exact (statusSideEffects_fields _ now _).1
    · dsimp only [statusSideEffects]
      rw [if_neg hfee]

/-- Witness for C6_cancellation_policy_strict on dbConf at clock 5000
(before the deadline 10000 - 24*60 = 8560). -/
theorem C6_cancellation_policy_strict_witness :
    (dbConf.salons.find? (fun s => s.slug == "glow") = some salonA ∧
     salonA.cancellationPolicyHours ≠ 0 ∧
     apptConf.status = .scheduled ∨ apptConf.status = .confirmed) ∧
    ((cancelBooking dbConf 5000 "glow" "ana@example.com" "ABC123").2 = .ok () ↔
      (5000 : Int) < apptConf.startTime -
        (salonA.cancellationPolicyHours : Int) * 60) :=
  ⟨by decide,
   (C6_cancellation_policy_strict dbConf 5000 "glow" "ana@example.com" "ABC123"
      salonA clientA apptConf 1 none apptConf 25
      (by decide) (by decide) (by decide) (by decide) (by decide) (by decide)
      (by norm_num)).1⟩

/-- C7 counterexample.  Retrying the completion call with the same
appointment id updates the stats again: after completing the in-progress
appointment with final total 600 twice, the client's visit count is 2
and the recorded spend 1200 (the claim promises no further update on
retry), and the stored loyalty tier is still the bronze default even
though a recomputation from the new total 1200 would yield silver. -/
theorem C7_completion_not_idempotent :
    calcLoyaltyTier 1200 = "silver" ∧
    findClient (completeAppointment dbInProg 1 { finalTotal := 600 } 700).1 1 =
      some { clientA with visitCount := 1, lastVisit := some 700,
                          totalSpent := 600 } ∧
    findClient (completeAppointment
        (completeAppointment dbInProg 1 { finalTotal := 600 } 700).1
        1 { finalTotal := 600 } 710).1 1 =
      some { clientA with visitCount := 2, lastVisit := some 710,
                          totalSpent := 1200 } := by
  with_unfolding_all decide

/-- C7 amended.  complete_appointment, on any existing appointment with
an existing client and regardless of the current status, marks the
appointment completed with completed_at and final_total and applies the
client-stat update (visit count + 1, total spent + final_total) - on
every call, so a retried completion updates the stats again - and that
update leaves the loyalty tier untouched; the tier recomputation from
the new total lives only in ClientService.update_visit_stats. -/
theorem C7_complete_behavior (db : SalonDB) (apptId : Nat) (co : Checkout)
    (now : Int) (a0 : Appointment) (c0 : Client)
    (h : findAppt db apptId = some a0)
    (hc : findClient db a0.clientId = some c0) :
    completeAppointment db apptId co now =
      (updateClient (updateAppt db apptId fun _ =>
          { a0 with status := .completed, completedAt := some now,
                    finalTotal := some co.finalTotal, updatedAt := now })
        a0.clientId (completeClientUpdate co.finalTotal now),
       .ok { a0 with status := .completed, completedAt := some now,
                     finalTotal := some co.finalTotal, updatedAt := now }) ∧
    (∀ c, (completeClientUpdate co.finalTotal now c).visitCount =
        c.visitCount + 1 ∧
      (completeClientUpdate co.finalTotal now c).totalSpent =
        c.totalSpent + co.finalTotal ∧
      (completeClientUpdate co.finalTotal now c).loyaltyTier =
        c.loyaltyTier) ∧
    (updateVisitStats c0 co.finalTotal now).loyaltyTier =
      calcLoyaltyTier (c0.totalSpent + co.finalTotal) := by
  refine ⟨?_, fun c => ⟨rfl, rfl, rfl⟩, rfl⟩
  unfold completeAppointment
  rw [h]
  dsimp only
  rw [hc]
  rfl

/-- Witness for C7_complete_behavior on dbInProg. -/
theorem C7_complete_behavior_witness :
    (findAppt dbInProg 1 = some apptInProg ∧
     findClient dbInProg apptInProg.clientId = some clientA) ∧
    (updateVisitStats clientA (600 : ℚ) 700).loyaltyTier =
      calcLoyaltyTier (clientA.totalSpent + 600) :=
  ⟨⟨by decide, by decide⟩,
   (C7_complete_behavior dbInProg 1 { finalTotal := 600 } 700 apptInProg
      clientA (by decide) (by decide)).2.2⟩

/-- Totality of the waitlist ORDER BY relation. -/
instance : IsTotal WaitlistEntry wlLE :=
  ⟨fun a b => by
    unfold wlLE
    rcases Nat.lt_trichotomy (priorityRank a.priority) (priorityRank b.priority)
      with h | h | h
    · right; left; exact h
    · rcases le_total a.createdAt b.createdAt with hc | hc
      · left; right; exact ⟨h, hc⟩
      · right; right; exact ⟨h.symm, hc⟩
    · left; left; exact h⟩

/-- Transitivity of the waitlist ORDER BY relation. -/
instance : IsTrans WaitlistEntry wlLE :=
  ⟨fun a b c hab hbc => by
    unfold wlLE at hab hbc ⊢
    omega⟩

/-- C8.  Listing waitlist candidates for a date returns first exactly
the salon's Pending/Notified entries with that exact preferred date,
sorted by priority vip, high, normal, low and ties by creation time
ascending (the wlLE order), followed by exactly the salon's
Pending/Notified flexible-date entries with preferred date within three
days that were not already listed, in the same order. -/
theorem C8_waitlist_for_date_order (db : SalonDB) (salonId : Nat) (d : Int) :
    ∃ e1 e2, getWaitlistForDate db salonId d = e1 ++ e2 ∧
      (∀ x, x ∈ e1 ↔ (x ∈ db.waitlist ∧ x.salonId = salonId ∧
        (x.status = .pending ∨ x.status = .notified) ∧ x.preferredDate = d)) ∧
      List.Sorted wlLE e1 ∧
      (∀ x, x ∈ e2 ↔ (x ∈ db.waitlist ∧ x.salonId = salonId ∧
        (x.status = .pending ∨ x.status = .notified) ∧ x.flexibleDates = true ∧
        d - 3 ≤ x.preferredDate ∧ x.preferredDate ≤ d + 3 ∧ x ∉ e1)) ∧
      List.Sorted wlLE e2 := by
  refine ⟨_, _, rfl, ?_, ?_, ?_, ?_⟩
  · intro x
    rw [(List.perm_insertionSort wlLE _).mem_iff, List.mem_filter,
      decide_eq_true_eq]
  · exact List.sorted_insertionSort wlLE _
  · intro x
    constructor
    · intro hx
      rw [List.mem_filter] at hx
      obtain ⟨hx1, hx2⟩ := hx
      rw [(List.perm_insertionSort wlLE _).mem_iff, List.mem_filter,
        decide_eq_true_eq] at hx1
      obtain ⟨hw, hc⟩ := hx1
      simp only [Bool.not_eq_true', decide_eq_false_iff_not] at hx2
      exact ⟨hw, hc.1, hc.2.1, hc.2.2.1, hc.2.2.2.1, hc.2.2.2.2, hx2⟩
    · intro hx
      rw [List.mem_filter]
      constructor
      · rw [(List.perm_insertionSort wlLE _).mem_iff, List.mem_filter,
          decide_eq_true_eq]
        exact ⟨hx.1, hx.2.1, hx.2.2.1, hx.2.2.2.1, hx.2.2.2.2.1,
          hx.2.2.2.2.2.1⟩
      · simp only [Bool.not_eq_true', decide_eq_false_iff_not]
        exact hx.2.2.2.2.2.2
  · exact List.Pairwise.filter _ (List.sorted_insertionSort wlLE _)

/-- C9 counterexample.  The claim reads: the scenario availability
request (Tuesday 09:00-17:00 schedule, 60-minute duration, issued at
09:05 the same day) returns the slots 09:35, 09:50, ... through 16:00.
The request instead fails: get_availability reads stylist.is_active, an
attribute the Staff model does not define, so no slot list is returned
at all. -/
theorem C9_availability_request_errors :
    staffModelFields.contains "is_active" = false ∧
    getAvailability dbMain 12065 1 8 60 [] = .error (.attributeErr "is_active") := by
  decide

/-- C9 amended.  The scenario request dies with the is_active
AttributeError before slot generation; the slot-generation body itself,
applied to the same scenario (day 8 = a Tuesday, work 09:00-17:00,
clock 09:05 = absolute minute 12065, duration 60, no bookings), yields
exactly the starts 09:35, 09:50, ..., 15:50 (absolute minutes 12095 +
15k, k < 26): the walk is anchored at the rounded lead-time start
09:35, so 16:00 (minute 12480) is not a candidate; the slots ascend and
every slot end stays within 17:00 (minute 12540). -/
theorem C9_slot_grid :
    getAvailability dbMain 12065 1 8 60 [] = .error (.attributeErr "is_active") ∧
    availabilitySlots dbMain 12065 staffTue 8 60 [] = .ok scenarioSlots ∧
    scenarioSlots.head? = some 12095 ∧
    scenarioSlots.getLast? = some 12470 ∧
    scenarioSlots.contains 12480 = false ∧
    (∀ i, i < 25 → scenarioSlots.getD i 0 < scenarioSlots.getD (i + 1) 0) ∧
    (∀ t ∈ scenarioSlots, t + 60 ≤ 12540) := by
  decide

/-- C10.  Every public booking request that survives the salon, service,
staff, time-format and lead-time validations fails with the
check_slot_available AttributeError - SchedulingService defines neither
check_slot_available nor get_available_slots - and the database is
returned unchanged, so the public booking path never persists an
appointment. -/
theorem C10_public_booking_cannot_persist (db : SalonDB) (now : Int)
    (slug : String) (req : BookingReq) (salon : Salon) (svc : Service)
    (st : Staff)
    (hs : db.salons.find? (fun s => s.slug == slug && s.isActive) = some salon)
    (hsvc : db.services.find? (fun s => s.id == req.serviceId &&
      s.salonId == salon.id && s.isActive && s.isOnlineBookable) = some svc)
    (hst : db.staffs.find? (fun s => s.id == req.staffId &&
      s.salonId == salon.id && s.status == "active") = some st)
    (hh : req.hour < 24) (hm : req.minute < 60)
    (hlead : ¬(req.day * 1440 + ((req.hour * 60 + req.minute : Nat) : Int) <
      now + (((if salon.bookingLeadTimeHours = 0 then 2
               else salon.bookingLeadTimeHours) : Nat) : Int) * 60)) :
    schedulingServiceMethods.contains "check_slot_available" = false ∧
    schedulingServiceMethods.contains "get_available_slots" = false ∧
    createBooking db now slug req =
      (db, .error (.attributeErr "check_slot_available")) := by
  refine ⟨by decide, by decide, ?_⟩
  unfold createBooking
  rw [hs]
  dsimp only
  rw [hsvc]
  dsimp only
  rw [hst]
  dsimp only
  rw [if_neg (by omega : ¬(req.hour ≥ 24 ∨ req.minute ≥ 60))]
  rw [if_neg hlead]
  rw [if_neg (by decide :
    ¬(schedulingServiceMethods.contains "check_slot_available" = true))]

/-- Witness for C10_public_booking_cannot_persist on dbMain with the
valid public request pubReqA at clock 0. -/
theorem C10_public_booking_cannot_persist_witness :
    (dbMain.salons.find? (fun s => s.slug == "glow" && s.isActive) =
        some salonA ∧
      pubReqA.hour < 24 ∧ pubReqA.minute < 60) ∧
    createBooking dbMain 0 "glow" pubReqA =
      (dbMain, .error (.attributeErr "check_slot_available")) :=
  ⟨⟨by decide, by decide, by decide⟩,
   (C10_public_booking_cannot_persist dbMain 0 "glow" pubReqA salonA svcA
      staffTue (by decide) (by decide) (by decide) (by decide) (by decide)
      (by decide)).2.2⟩

end SalonSync
